import Mathlib

/-!
Shallow embedding of the search component in `src/components/Main.vue` of the
amplify-vue-template repository: the JSON payloads returned by the business
registry API, the duck-typed response guards, the response classifier, the
component's reactive state, and the event handlers (search submission,
pagination, detail drill-down, notification dismissal).
-/

/-- A JSON value as produced by parsing the HTTP response body.
Numbers are modelled as integers (the payloads carry only integral counts). -/
inductive Json where
  | null
  | bool (b : Bool)
  | num (n : Int)
  | str (s : String)
  | arr (elems : List Json)
  | obj (fields : List (String × Json))

/-- Property lookup `j[k]`: only plain objects have named properties
(a JSON-parsed array has none of the probed names). -/
def Json.getField : Json → String → Option Json
  | Json.obj fields, k => fields.lookup k
  | _, _ => none

/-- The JavaScript `'k' in j` membership probe used by the type guards. -/
def Json.hasField (j : Json) (k : String) : Bool :=
  (j.getField k).isSome

/-- `data && typeof data === 'object'`: true for objects and arrays,
false for `null` and the primitives. -/
def Json.isObjectLike : Json → Bool
  | Json.obj _ => true
  | Json.arr _ => true
  | _ => false

/-- `j[k] === v` for a string literal `v` (strict equality: the field must
exist and hold exactly that string). -/
def Json.strFieldEq (j : Json) (k v : String) : Bool :=
  match j.getField k with
  | some (Json.str s) => s == v
  | _ => false

/-- `Array.isArray(j[k])`. -/
def Json.isArrayField (j : Json) (k : String) : Bool :=
  match j.getField k with
  | some (Json.arr _) => true
  | _ => false

/-- The elements of the `COMPANY_LIST` array field (empty if absent). -/
def Json.companyList (j : Json) : List Json :=
  match j.getField "COMPANY_LIST" with
  | some (Json.arr xs) => xs
  | _ => []

/-- The value of the `message` field (used only after `hasField "message"`). -/
def Json.messageValue (j : Json) : Json :=
  match j.getField "message" with
  | some v => v
  | none => Json.null

mutual

/-- How a JSON value reads when assigned to the error-message string and
interpolated into the view (a string shows as itself; other values are
rendered JSON-style). -/
def Json.renderString : Json → String
  | Json.null => "null"
  | Json.bool b => if b then "true" else "false"
  | Json.num n => toString n
  | Json.str s => s
  | Json.arr xs => "[" ++ Json.renderElems xs ++ "]"
  | Json.obj fs => "\x7b" ++ Json.renderFields fs ++ "\x7d"

/-- Render a list of JSON values, comma separated. -/
def Json.renderElems : List Json → String
  | [] => ""
  | [x] => Json.renderString x
  | x :: xs => Json.renderString x ++ "," ++ Json.renderElems xs

/-- Render the fields of a JSON object, comma separated. -/
def Json.renderFields : List (String × Json) → String
  | [] => ""
  | [(k, v)] => "\"" ++ k ++ "\":" ++ Json.renderString v
  | (k, v) :: fs => "\"" ++ k ++ "\":" ++ Json.renderString v ++ "," ++ Json.renderFields fs

end

/-- `isSingleCompanyResponse` from Main.vue: a single business record is
recognised by the presence of `UEN`, `ENTITY_NAME` and `DATA_TYPE`. -/
def isSingleCompanyResponse (data : Json) : Bool :=
  data.isObjectLike &&
    (data.hasField "UEN" && data.hasField "ENTITY_NAME" && data.hasField "DATA_TYPE")

/-- `isSsicSummaryResponse` from Main.vue: an aggregate summary is recognised
by the presence of `SSIC` and `TOTAL_COUNT`. -/
def isSsicSummaryResponse (data : Json) : Bool :=
  data.isObjectLike && (data.hasField "SSIC" && data.hasField "TOTAL_COUNT")

/-- `isMultipleCompanyResponse` from Main.vue: a multi-record list is
recognised by `DATA_TYPE === 'MULTIPLE_COM'` and an array `COMPANY_LIST`. -/
def isMultipleCompanyResponse (data : Json) : Bool :=
  data.isObjectLike &&
    (data.strFieldEq "DATA_TYPE" "MULTIPLE_COM" && data.isArrayField "COMPANY_LIST")

/-- The three search modes of the dropdown. -/
inductive SearchType where
  | UEN
  | NAME
  | SSIC
  deriving DecidableEq

/-- The string sent as the `type` query parameter for a mode. -/
def SearchType.toLabel : SearchType → String
  | SearchType.UEN => "UEN"
  | SearchType.NAME => "NAME"
  | SearchType.SSIC => "SSIC"

/-- `SearchResultWrapper` from Main.vue: the stored result, tagged with the
classification outcome. -/
structure SearchResultWrapper where
  type : String
  data : Json

/-- Outcome of classifying a successful response body: either a tagged
result wrapper or an error-message string for the unrecognised case. -/
inductive ClassifyResult where
  | result (w : SearchResultWrapper)
  | errMsg (m : String)

/-- The classification cascade in `search` (Main.vue lines 179-201), in source
order: multi-record list first, then aggregate summary, then single record
(tagged by the search mode), then the message/generic fallback. -/
def classifyResponse (mode : SearchType) (raw : Json) : ClassifyResult :=
  if isMultipleCompanyResponse raw then
    ClassifyResult.result { type := "MULTIPLE_COM", data := raw }
  else if isSsicSummaryResponse raw then
    ClassifyResult.result { type := "SSIC", data := raw }
  else if isSingleCompanyResponse raw then
    ClassifyResult.result
      { type := if mode = SearchType.UEN then "UEN" else "SINGLE_COM", data := raw }
  else if raw.isObjectLike && raw.hasField "message" then
    ClassifyResult.errMsg (raw.messageValue).renderString
  else
    ClassifyResult.errMsg "No results found or invalid response format."

/-- The error thrown by a failed API call, as probed in the catch block of
`search`: an optional `response.statusCode` and, when the thrown value is an
`Error` instance, its `message`. -/
structure ApiError where
  statusCode : Option Nat
  message : Option String

/-- The environment's answer to an issued request: a parsed JSON body on
HTTP success, or a thrown error on failure. -/
inductive SearchOutcome where
  | response (body : Json)
  | apiError (e : ApiError)

/-- The query parameters of a `GET /company` request. -/
structure ApiRequest where
  queryType : String
  data : String

/-- The reactive state held by the component (the `ref`s of Main.vue). -/
structure ComponentState where
  showNotification : Bool
  notificationMessage : String
  searchType : SearchType
  searchText : String
  searchResults : Option SearchResultWrapper
  errorMessage : String
  isLoading : Bool
  selectedCompanyDetails : Option Json
  isLoadingDetails : Bool
  currentPage : Nat
  itemsPerPage : Nat
  isDropdownOpen : Bool
  showHeadings : Bool
  isDisclaimerOpen : Bool

/-- The initial values of the component's `ref`s. -/
def initialState : ComponentState :=
  { showNotification := false
    notificationMessage := ""
    searchType := SearchType.UEN
    searchText := ""
    searchResults := none
    errorMessage := ""
    isLoading := false
    selectedCompanyDetails := none
    isLoadingDetails := false
    currentPage := 1
    itemsPerPage := 10
    isDropdownOpen := false
    showHeadings := true
    isDisclaimerOpen := false }

/-- JavaScript `String.prototype.trim`, as applied to the search text:
strip whitespace from both ends of the string. -/
def jsTrim (s : String) : String :=
  String.mk (((s.data.dropWhile Char.isWhitespace).reverse.dropWhile Char.isWhitespace).reverse)

/-- `resetResults` from Main.vue: restore headings, drop the stored result,
error message and selected company, and return to the first page. -/
def resetResults (s : ComponentState) : ComponentState :=
  { s with
    showHeadings := true
    searchResults := none
    errorMessage := ""
    selectedCompanyDetails := none
    currentPage := 1 }

/-- `totalPages` from Main.vue: `Math.ceil(COMPANY_LIST.length / itemsPerPage)`
when a multi-record result is stored, else 0. The ceiling of the division is
written in its integer form `(len + P - 1) / P`; the theorem for the
pagination claim proves this equal to `⌈len / P⌉` over ℚ. -/
def totalPages (s : ComponentState) : Nat :=
  match s.searchResults with
  | some w =>
    if w.type == "MULTIPLE_COM" && w.data.hasField "COMPANY_LIST" then
      (w.data.companyList.length + s.itemsPerPage - 1) / s.itemsPerPage
    else 0
  | none => 0

/-- `paginatedCompanyList` from Main.vue: the slice
`COMPANY_LIST.slice((currentPage-1)*itemsPerPage, currentPage*itemsPerPage)`
when a multi-record result is stored, else the empty list. -/
def paginatedCompanyList (s : ComponentState) : List Json :=
  match s.searchResults with
  | some w =>
    if w.type == "MULTIPLE_COM" && w.data.hasField "COMPANY_LIST" then
      ((w.data.companyList).drop ((s.currentPage - 1) * s.itemsPerPage)).take s.itemsPerPage
    else []
  | none => []

/-- `goToPage` from Main.vue: jump to a page only when it lies in
`[1, totalPages]`, otherwise do nothing. -/
def goToPage (s : ComponentState) (pageNumber : Nat) : ComponentState :=
  if 1 ≤ pageNumber ∧ pageNumber ≤ totalPages s then
    { s with currentPage := pageNumber }
  else s

/-- `nextPage` from Main.vue: advance only when strictly below the last page. -/
def nextPage (s : ComponentState) : ComponentState :=
  if s.currentPage < totalPages s then { s with currentPage := s.currentPage + 1 } else s

/-- `prevPage` from Main.vue: go back only when strictly above page 1. -/
def prevPage (s : ComponentState) : ComponentState :=
  if 1 < s.currentPage then { s with currentPage := s.currentPage - 1 } else s

/-- The fixed notification content passed to `triggerNotification` in the
`finally` block of `search`. -/
def contactNotice : String :=
  "For detailed reports on any of these companies, please <a href=\"https://sccb.com.sg/contact-us/\" target=\"_blank\" rel=\"noopener noreferrer\">contact us</a>."

/-- The opening statements of `search`, executed before any response can
arrive: `resetResults()`, hide the headings, raise the loading flag. -/
def searchBegin (s : ComponentState) : ComponentState :=
  { resetResults s with showHeadings := false, isLoading := true }

/-- The `finally` block of `search`: clear the loading flag and trigger the
persistent notification. -/
def searchFinish (s : ComponentState) : ComponentState :=
  { s with
    isLoading := false
    showNotification := true
    notificationMessage := contactNotice }

/-- Store the classification outcome into the state, as the success branch of
`search` does. -/
def applyClassification (s : ComponentState) (r : ClassifyResult) : ComponentState :=
  match r with
  | ClassifyResult.result w => { s with searchResults := some w }
  | ClassifyResult.errMsg m => { s with errorMessage := m }

/-- The catch block of `search`: 404 maps to the fixed not-found message, an
`Error` with a message surfaces it verbatim, anything else gets the generic
failure message. -/
def applyApiError (s : ComponentState) (e : ApiError) : ComponentState :=
  if e.statusCode = some 404 then
    { s with errorMessage := "No Live Company Found" }
  else
    match e.message with
    | some m => { s with errorMessage := m }
    | none => { s with errorMessage := "An unexpected error occurred. Please try again." }

/-- `search` from Main.vue as a state transition. It returns the successor
state together with the request it issued (`none` when validation rejected a
blank input before any network call; the early return also skips the
`finally` notification). `outcome` is the environment's answer, consumed only
when a request was issued. -/
def search (s : ComponentState) (outcome : SearchOutcome) :
    ComponentState × Option ApiRequest :=
  let s1 := searchBegin s
  if (jsTrim s1.searchText).isEmpty then
    ({ s1 with errorMessage := "Please enter a search term.", isLoading := false }, none)
  else
    let req : ApiRequest := { queryType := s1.searchType.toLabel, data := jsTrim s1.searchText }
    let s2 :=
      match outcome with
      | SearchOutcome.response raw => applyClassification s1 (classifyResponse s1.searchType raw)
      | SearchOutcome.apiError e => applyApiError s1 e
    (searchFinish s2, some req)

/-- `getCompanyDetailsByUen` from Main.vue as a state transition: always
issues a UEN-mode lookup for the clicked row's identifier, stores the detail
record only when the response passes the single-record guard, and swallows
every failure (the main error message and stored list are never touched). -/
def getCompanyDetailsByUen (s : ComponentState) (uen : String) (outcome : SearchOutcome) :
    ComponentState × ApiRequest :=
  let s1 := { s with isLoadingDetails := true, selectedCompanyDetails := none }
  let req : ApiRequest := { queryType := "UEN", data := uen }
  let s2 :=
    match outcome with
    | SearchOutcome.response raw =>
      if isSingleCompanyResponse raw then { s1 with selectedCompanyDetails := some raw } else s1
    | SearchOutcome.apiError _ => s1
  ({ s2 with isLoadingDetails := false }, req)

/-- The toast close button: `showNotification.value = false`. -/
def dismissNotification (s : ComponentState) : ComponentState :=
  { s with showNotification := false }

/-- `handleNotificationClick` from Main.vue: hide the toast only when the
clicked element is an anchor tag. -/
def handleNotificationClick (s : ComponentState) (targetTagName : String) : ComponentState :=
  if targetTagName == "A" then { s with showNotification := false } else s

/-- A response satisfying both the multiple-record and the aggregate shape. -/
def bothShapesJson : Json :=
  Json.obj [("DATA_TYPE", Json.str "MULTIPLE_COM"), ("COMPANY_LIST", Json.arr []),
            ("SSIC", Json.str "62010"), ("TOTAL_COUNT", Json.num 42)]

/-- A state whose search text is whitespace only. -/
def blankState : ComponentState := { initialState with searchText := "   " }

/-- A state about to submit a NAME search. -/
def acmeState : ComponentState :=
  { initialState with searchType := SearchType.NAME, searchText := "Acme" }

/-- `(len + P - 1) / P` in ℕ is the rational ceiling of `len / P`. -/
lemma ceil_natCast_div_eq (N P : Nat) (hP : 0 < P) :
    ⌈(N : ℚ) / (P : ℚ)⌉ = (((N + P - 1) / P : Nat) : Int) := by
  have hP' : (0 : ℚ) < (P : ℚ) := by exact_mod_cast hP
  have key : N ≤ ((N + P - 1) / P) * P ∧ ((N + P - 1) / P) * P < N + P := by
    have hdm := Nat.div_add_mod (N + P - 1) P
    have hmod : (N + P - 1) % P < P := Nat.mod_lt _ hP
    have hcomm : ((N + P - 1) / P) * P = P * ((N + P - 1) / P) := Nat.mul_comm _ _
    set M := P * ((N + P - 1) / P) with hM
    set r := (N + P - 1) % P with hr
    rw [hcomm]
    omega
  obtain ⟨h1, h2⟩ := key
  set z := (N + P - 1) / P with hz
  have h1q : (N : ℚ) ≤ (z : ℚ) * (P : ℚ) := by exact_mod_cast h1
  have h2q : (z : ℚ) * (P : ℚ) < (N : ℚ) + (P : ℚ) := by exact_mod_cast h2
  refine le_antisymm (Int.ceil_le.mpr ?_) ?_
  · push_cast
    rw [div_le_iff₀ hP']
    linarith
  · rw [← Int.sub_one_lt_iff, Int.lt_ceil]
    push_cast
    rw [lt_div_iff₀ hP']
    linarith

/-- A passing array-field probe exhibits the array behind the field. -/
lemma isArrayField_exists {d : Json} {k : String} (h : d.isArrayField k = true) :
    ∃ xs, d.getField k = some (Json.arr xs) := by
  unfold Json.isArrayField at h
  rcases hg : d.getField k with _ | v
  · rw [hg] at h
    exact absurd h (by simp)
  · rw [hg] at h
    cases v with
    | arr xs => exact ⟨xs, rfl⟩
    | null => exact absurd h (by simp)
    | bool b => exact absurd h (by simp)
    | num n => exact absurd h (by simp)
    | str s => exact absurd h (by simp)
    | obj fs => exact absurd h (by simp)

/-- A payload passing the multiple-record guard carries an array
`COMPANY_LIST` field. -/
lemma multiple_has_company_list {d : Json} (h : isMultipleCompanyResponse d = true) :
    ∃ xs, d.getField "COMPANY_LIST" = some (Json.arr xs) := by
  unfold isMultipleCompanyResponse at h
  simp only [Bool.and_eq_true] at h
  exact isArrayField_exists h.2.2

/-- A field that is present makes `hasField` true. -/
lemma hasField_of_getField {d : Json} {k : String} {v : Json}
    (h : d.getField k = some v) : d.hasField k = true := by
  simp [Json.hasField, h]

/-- C1: a payload that satisfies both the multiple-record shape and the
aggregate shape is classified as the multiple-record (list) result — the
list-shape check runs before the aggregate-shape check — and a search
receiving such a payload stores the list wrapper. -/
theorem claim_C1_list_shape_checked_first (mode : SearchType) (raw : Json)
    (hmul : isMultipleCompanyResponse raw = true)
    (hssic : isSsicSummaryResponse raw = true) :
    classifyResponse mode raw = ClassifyResult.result { type := "MULTIPLE_COM", data := raw } ∧
    ∀ s : ComponentState, (jsTrim s.searchText).isEmpty = false →
      ((search s (SearchOutcome.response raw)).fst).searchResults =
        some { type := "MULTIPLE_COM", data := raw } := by
  have hcl : classifyResponse mode raw =
      ClassifyResult.result { type := "MULTIPLE_COM", data := raw } := by
    simp [classifyResponse, hmul]
  refine ⟨hcl, ?_⟩
  intro s hs
  simp [search, searchBegin, resetResults, hs, applyClassification, searchFinish,
        classifyResponse, hmul]

/-- Witness for C1 at a payload carrying both a list discriminant and the
aggregate fields. -/
theorem claim_C1_witness :
    isMultipleCompanyResponse bothShapesJson = true ∧
    isSsicSummaryResponse bothShapesJson = true ∧
    classifyResponse SearchType.NAME bothShapesJson =
      ClassifyResult.result { type := "MULTIPLE_COM", data := bothShapesJson } :=
  ⟨rfl, rfl, (claim_C1_list_shape_checked_first SearchType.NAME bothShapesJson rfl rfl).1⟩

/-- C2: a blank (whitespace-only) submission issues no request, sets the
fixed validation message, and clears the loading flag. -/
theorem claim_C2_blank_input_validation (s : ComponentState) (o : SearchOutcome)
    (h : (jsTrim s.searchText).isEmpty = true) :
    (search s o).snd = none ∧
    ((search s o).fst).errorMessage = "Please enter a search term." ∧
    ((search s o).fst).isLoading = false := by
  simp [search, searchBegin, resetResults, h]

/-- Witness for C2 at a whitespace-only search text. -/
theorem claim_C2_witness :
    (jsTrim blankState.searchText).isEmpty = true ∧
    (search blankState (SearchOutcome.response Json.null)).snd = none ∧
    ((search blankState (SearchOutcome.response Json.null)).fst).errorMessage =
      "Please enter a search term." := by
  have h : (jsTrim blankState.searchText).isEmpty = true := by decide
  have hc := claim_C2_blank_input_validation blankState (SearchOutcome.response Json.null) h
  exact ⟨h, hc.1, hc.2.1⟩

/-- C3: every submission starts by clearing the previously held result,
error message and selected detail, and resetting the page to 1 — this is
the state from which `search` proceeds before any response is consumed. -/
theorem claim_C3_submission_clears_prior_state (s : ComponentState) :
    (searchBegin s).searchResults = none ∧
    (searchBegin s).errorMessage = "" ∧
    (searchBegin s).selectedCompanyDetails = none ∧
    (searchBegin s).currentPage = 1 := by
  simp [searchBegin, resetResults]

/-- A multiple-record response holding 25 (dummy) company records. -/
def listJson25 : Json :=
  Json.obj [("DATA_TYPE", Json.str "MULTIPLE_COM"),
            ("COMPANY_LIST", Json.arr (List.replicate 25 Json.null))]

/-- A state holding the 25-record list on page 1. -/
def listState25 : ComponentState :=
  { acmeState with searchResults := some { type := "MULTIPLE_COM", data := listJson25 } }

/-- A multiple-record response whose company list is empty. -/
def emptyListJson : Json :=
  Json.obj [("DATA_TYPE", Json.str "MULTIPLE_COM"), ("COMPANY_LIST", Json.arr [])]

/-- A state holding the empty-list multiple-record result. -/
def emptyListState : ComponentState :=
  { acmeState with searchResults := some { type := "MULTIPLE_COM", data := emptyListJson } }

/-- C4: for a stored multiple-record result with N companies and page size P,
totalPages is the ceiling of N / P (stated over ℚ, together with its integer
form); prevPage at page 1 leaves the page unchanged; nextPage at the last
page leaves the page unchanged. -/
theorem claim_C4_totalPages_ceil_and_edge_noops (s : ComponentState) (d : Json)
    (hres : s.searchResults = some { type := "MULTIPLE_COM", data := d })
    (hg : isMultipleCompanyResponse d = true)
    (hP : 0 < s.itemsPerPage) :
    (totalPages s : Int) = ⌈(d.companyList.length : ℚ) / (s.itemsPerPage : ℚ)⌉ ∧
    totalPages s = (d.companyList.length + s.itemsPerPage - 1) / s.itemsPerPage ∧
    (s.currentPage = 1 → (prevPage s).currentPage = 1) ∧
    (s.currentPage = totalPages s → (nextPage s).currentPage = s.currentPage) := by
  obtain ⟨xs, hxs⟩ := multiple_has_company_list hg
  have hhf : d.hasField "COMPANY_LIST" = true := hasField_of_getField hxs
  have htp : totalPages s = (d.companyList.length + s.itemsPerPage - 1) / s.itemsPerPage := by
    simp [totalPages, hres, hhf]
  refine ⟨?_, htp, ?_, ?_⟩
  · rw [htp]
    exact (ceil_natCast_div_eq _ _ hP).symm
  · intro h1
    simp [prevPage, h1]
  · intro h2
    simp [nextPage, h2]

/-- Witness for C4 at a 25-record list with page size 10: totalPages is 3. -/
theorem claim_C4_witness :
    listState25.searchResults = some { type := "MULTIPLE_COM", data := listJson25 } ∧
    isMultipleCompanyResponse listJson25 = true ∧
    0 < listState25.itemsPerPage ∧
    totalPages listState25 = 3 := by
  have hc := claim_C4_totalPages_ceil_and_edge_noops listState25 listJson25 rfl rfl (by decide)
  refine ⟨rfl, rfl, by decide, ?_⟩
  rw [hc.2.1]
  decide

/-- C5 counterexample: for the multiple-record result with an empty company
list (a shape the guard accepts), totalPages is 0 while the current page is
1, and navigation leaves it at 1 — so the resulting page does NOT lie in the
claimed interval [1, totalPages]. -/
theorem claim_C5_counterexample :
    isMultipleCompanyResponse emptyListJson = true ∧
    emptyListState.currentPage = 1 ∧
    totalPages emptyListState = 0 ∧
    ¬ ((nextPage emptyListState).currentPage ≤ totalPages emptyListState) ∧
    ¬ ((goToPage emptyListState 1).currentPage ≤ totalPages emptyListState) := by
  decide

/-- C5 (amended): provided the stored company list is nonempty — so that the
interval [1, totalPages] is itself nonempty — and the current page lies in
it, goToPage, nextPage and prevPage all keep the current page inside
[1, totalPages], none of them touches the fetched result (no re-fetching),
and the displayed page is the pure slice of the full list: its i-th entry is
the full list's entry at (currentPage-1)*itemsPerPage + i. -/
theorem claim_C5_navigation_clamps_and_slices (s : ComponentState) (d : Json) (xs : List Json)
    (hres : s.searchResults = some { type := "MULTIPLE_COM", data := d })
    (hxs : d.getField "COMPANY_LIST" = some (Json.arr xs))
    (hlo : 1 ≤ s.currentPage) (hhi : s.currentPage ≤ totalPages s) :
    (∀ n, 1 ≤ (goToPage s n).currentPage ∧ (goToPage s n).currentPage ≤ totalPages s ∧
          (goToPage s n).searchResults = s.searchResults) ∧
    (1 ≤ (nextPage s).currentPage ∧ (nextPage s).currentPage ≤ totalPages s ∧
          (nextPage s).searchResults = s.searchResults) ∧
    (1 ≤ (prevPage s).currentPage ∧ (prevPage s).currentPage ≤ totalPages s ∧
          (prevPage s).searchResults = s.searchResults) ∧
    (∀ i, i < s.itemsPerPage →
      (paginatedCompanyList s)[i]? = xs[(s.currentPage - 1) * s.itemsPerPage + i]?) := by
  have hhf : d.hasField "COMPANY_LIST" = true := hasField_of_getField hxs
  have hcl : d.companyList = xs := by simp [Json.companyList, hxs]
  refine ⟨?_, ?_, ?_, ?_⟩
  · intro n
    by_cases hc : 1 ≤ n ∧ n ≤ totalPages s
    · simp [goToPage, hc, hc.1, hc.2]
    · simp [goToPage, hc, hlo, hhi]
  · refine ⟨?_, ?_, ?_⟩
    · by_cases hc : s.currentPage < totalPages s
      · simp [nextPage, hc]
      · simp [nextPage, hc, hlo]
    · by_cases hc : s.currentPage < totalPages s
      · simp only [nextPage, if_pos hc]
        omega
      · simp [nextPage, hc, hhi]
    · by_cases hc : s.currentPage < totalPages s
      · simp [nextPage, hc]
      · simp [nextPage, hc]
  · refine ⟨?_, ?_, ?_⟩
    · by_cases hc : 1 < s.currentPage
      · simp only [prevPage, if_pos hc]
        omega
      · simp [prevPage, hc, hlo]
    · by_cases hc : 1 < s.currentPage
      · simp only [prevPage, if_pos hc]
        omega
      · simp [prevPage, hc, hhi]
    · by_cases hc : 1 < s.currentPage
      · simp [prevPage, hc]
      · simp [prevPage, hc]
  · intro i hi
    have hpag : paginatedCompanyList s =
        (xs.drop ((s.currentPage - 1) * s.itemsPerPage)).take s.itemsPerPage := by
      simp [paginatedCompanyList, hres, hhf, hcl]
    rw [hpag, List.getElem?_take, if_pos hi, List.getElem?_drop]

/-- Witness for C5 (amended) at the 25-record list on page 1: page entry 0 is
the full list's entry 0. -/
theorem claim_C5_witness :
    listState25.searchResults = some { type := "MULTIPLE_COM", data := listJson25 } ∧
    listJson25.getField "COMPANY_LIST" = some (Json.arr (List.replicate 25 Json.null)) ∧
    1 ≤ listState25.currentPage ∧ listState25.currentPage ≤ totalPages listState25 ∧
    (0 < listState25.itemsPerPage →
      (paginatedCompanyList listState25)[0]? = (List.replicate 25 Json.null)[0]?) := by
  have hc := claim_C5_navigation_clamps_and_slices listState25 listJson25
    (List.replicate 25 Json.null) rfl rfl (by decide) (by decide)
  refine ⟨rfl, rfl, by decide, by decide, ?_⟩
  intro h0
  have := hc.2.2.2 0 h0
  simpa using this

/-- C6: an HTTP failure whose status code is 404 always displays exactly
"No Live Company Found", whatever message the failure carries. -/
theorem claim_C6_notFound_fixed_message (s : ComponentState) (e : ApiError)
    (hs : (jsTrim s.searchText).isEmpty = false)
    (h404 : e.statusCode = some 404) :
    ((search s (SearchOutcome.apiError e)).fst).errorMessage = "No Live Company Found" := by
  simp [search, searchBegin, resetResults, hs, applyApiError, h404, searchFinish]

/-- Witness for C6: a 404 failure carrying a body message is still mapped to
the fixed not-found message. -/
theorem claim_C6_witness :
    (jsTrim acmeState.searchText).isEmpty = false ∧
    ({ statusCode := some 404, message := some "rate limited" } : ApiError).statusCode =
      some 404 ∧
    ((search acmeState
        (SearchOutcome.apiError
          { statusCode := some 404, message := some "rate limited" })).fst).errorMessage =
      "No Live Company Found" := by
  have h := claim_C6_notFound_fixed_message acmeState
    { statusCode := some 404, message := some "rate limited" } (by decide) rfl
  exact ⟨by decide, rfl, h⟩

/-- C7: a non-404 HTTP failure that carries a message displays that message
verbatim; a non-404 failure without one displays the generic failure
message. -/
theorem claim_C7_other_error_messages (s : ComponentState) (e : ApiError)
    (hs : (jsTrim s.searchText).isEmpty = false)
    (hne : e.statusCode ≠ some 404) :
    (∀ m, e.message = some m →
      ((search s (SearchOutcome.apiError e)).fst).errorMessage = m) ∧
    (e.message = none →
      ((search s (SearchOutcome.apiError e)).fst).errorMessage =
        "An unexpected error occurred. Please try again.") := by
  constructor
  · intro m hm
    simp [search, searchBegin, resetResults, hs, applyApiError, hne, hm, searchFinish]
  · intro hm
    simp [search, searchBegin, resetResults, hs, applyApiError, hne, hm, searchFinish]

/-- Witness for C7: a 500 with message "rate limited" surfaces it verbatim;
a 500 without a message surfaces the generic failure message. -/
theorem claim_C7_witness :
    (jsTrim acmeState.searchText).isEmpty = false ∧
    ({ statusCode := some 500, message := some "rate limited" } : ApiError).statusCode ≠
      some 404 ∧
    ((search acmeState
        (SearchOutcome.apiError
          { statusCode := some 500, message := some "rate limited" })).fst).errorMessage =
      "rate limited" ∧
    ((search acmeState
        (SearchOutcome.apiError
          { statusCode := some 500, message := none })).fst).errorMessage =
      "An unexpected error occurred. Please try again." := by
  have h1 := claim_C7_other_error_messages acmeState
    { statusCode := some 500, message := some "rate limited" } (by decide) (by decide)
  have h2 := claim_C7_other_error_messages acmeState
    { statusCode := some 500, message := none } (by decide) (by decide)
  exact ⟨by decide, by decide, h1.1 "rate limited" rfl, h2.2 rfl⟩

/-- C8: a row click always issues the drill-down in UEN mode for that row's
identifier; the lookup never touches the main error message or the stored
list; and when the detail response fails the single-record guard, or the
request itself fails, no detail is stored and no error is surfaced — the
list view stays intact. -/
theorem claim_C8_detail_drilldown_frame (s : ComponentState) (uen : String)
    (o : SearchOutcome) :
    (getCompanyDetailsByUen s uen o).snd = { queryType := "UEN", data := uen } ∧
    ((getCompanyDetailsByUen s uen o).fst).errorMessage = s.errorMessage ∧
    ((getCompanyDetailsByUen s uen o).fst).searchResults = s.searchResults ∧
    (∀ raw, o = SearchOutcome.response raw → isSingleCompanyResponse raw = false →
      ((getCompanyDetailsByUen s uen o).fst).selectedCompanyDetails = none) ∧
    (∀ e, o = SearchOutcome.apiError e →
      ((getCompanyDetailsByUen s uen o).fst).selectedCompanyDetails = none) := by
  refine ⟨rfl, ?_, ?_, ?_, ?_⟩
  · cases o with
    | response raw =>
      by_cases h : isSingleCompanyResponse raw = true <;> simp [getCompanyDetailsByUen, h]
    | apiError e => simp [getCompanyDetailsByUen]
  · cases o with
    | response raw =>
      by_cases h : isSingleCompanyResponse raw = true <;> simp [getCompanyDetailsByUen, h]
    | apiError e => simp [getCompanyDetailsByUen]
  · intro raw ho hguard
    subst ho
    simp [getCompanyDetailsByUen, hguard]
  · intro e ho
    subst ho
    simp [getCompanyDetailsByUen]

/-- Witness for C8: a detail lookup answered by an unclassifiable body keeps
the error message and list intact and stores no detail. -/
theorem claim_C8_witness :
    (getCompanyDetailsByUen listState25 "202012345A" (SearchOutcome.response Json.null)).snd =
      { queryType := "UEN", data := "202012345A" } ∧
    isSingleCompanyResponse Json.null = false ∧
    ((getCompanyDetailsByUen listState25 "202012345A"
        (SearchOutcome.response Json.null)).fst).selectedCompanyDetails = none ∧
    ((getCompanyDetailsByUen listState25 "202012345A"
        (SearchOutcome.response Json.null)).fst).searchResults = listState25.searchResults := by
  have h := claim_C8_detail_drilldown_frame listState25 "202012345A"
    (SearchOutcome.response Json.null)
  exact ⟨h.1, rfl, h.2.2.2.1 Json.null rfl rfl, h.2.2.1⟩

/-- C9: a search that passes validation always completes with the
notification shown and its message set to the fixed contact notice, whatever
the outcome; dismissing the toast — by the close button or by a click on its
embedded anchor — hides it without touching the stored result or the error
message. -/
theorem claim_C9_notification_lifecycle (s : ComponentState) (o : SearchOutcome)
    (hs : (jsTrim s.searchText).isEmpty = false) :
    ((search s o).fst).showNotification = true ∧
    ((search s o).fst).notificationMessage = contactNotice ∧
    contactNotice ≠ "" ∧
    (∀ t : ComponentState,
      (dismissNotification t).showNotification = false ∧
      (dismissNotification t).searchResults = t.searchResults ∧
      (dismissNotification t).errorMessage = t.errorMessage) ∧
    (∀ (t : ComponentState) (tag : String),
      (handleNotificationClick t tag).searchResults = t.searchResults ∧
      (handleNotificationClick t tag).errorMessage = t.errorMessage) ∧
    (∀ t : ComponentState, (handleNotificationClick t "A").showNotification = false) := by
  refine ⟨?_, ?_, by decide, ?_, ?_, ?_⟩
  · simp [search, searchBegin, resetResults, hs, searchFinish]
  · simp [search, searchBegin, resetResults, hs, searchFinish]
  · intro t
    simp [dismissNotification]
  · intro t tag
    by_cases h : (tag == "A") = true <;> simp [handleNotificationClick, h]
  · intro t
    simp [handleNotificationClick]

/-- Witness for C9: a NAME search answered by a null body still triggers the
notification with the contact notice. -/
theorem claim_C9_witness :
    (jsTrim acmeState.searchText).isEmpty = false ∧
    ((search acmeState (SearchOutcome.response Json.null)).fst).showNotification = true ∧
    ((search acmeState (SearchOutcome.response Json.null)).fst).notificationMessage =
      contactNotice := by
  have h := claim_C9_notification_lifecycle acmeState (SearchOutcome.response Json.null)
    (by decide)
  exact ⟨by decide, h.1, h.2.1⟩

/-- C10: classification is a total deterministic function of mode and
payload: every JSON value is assigned exactly one outcome — a wrapper tagged
MULTIPLE_COM, SSIC, UEN or SINGLE_COM, or an error message — and every
null or non-object-like payload, and every array (which can carry no message
field), gets the generic unrecognised-format message. -/
theorem claim_C10_classification_total (mode : SearchType) (raw : Json) :
    ((∃ m, classifyResponse mode raw = ClassifyResult.errMsg m) ∨
     (∃ w, classifyResponse mode raw = ClassifyResult.result w ∧
        (w.type = "MULTIPLE_COM" ∨ w.type = "SSIC" ∨
         w.type = "UEN" ∨ w.type = "SINGLE_COM"))) ∧
    (raw.isObjectLike = false →
      classifyResponse mode raw =
        ClassifyResult.errMsg "No results found or invalid response format.") ∧
    (∀ xs, raw = Json.arr xs →
      classifyResponse mode raw =
        ClassifyResult.errMsg "No results found or invalid response format.") := by
  refine ⟨?_, ?_, ?_⟩
  · by_cases h1 : isMultipleCompanyResponse raw = true
    · refine Or.inr ⟨{ type := "MULTIPLE_COM", data := raw }, ?_, Or.inl rfl⟩
      simp [classifyResponse, h1]
    · by_cases h2 : isSsicSummaryResponse raw = true
      · refine Or.inr ⟨{ type := "SSIC", data := raw }, ?_, Or.inr (Or.inl rfl)⟩
        simp [classifyResponse, h1, h2]
      · by_cases h3 : isSingleCompanyResponse raw = true
        · by_cases hm : mode = SearchType.UEN
          · refine Or.inr ⟨{ type := "UEN", data := raw }, ?_, Or.inr (Or.inr (Or.inl rfl))⟩
            simp [classifyResponse, h1, h2, h3, hm]
          · refine Or.inr
              ⟨{ type := "SINGLE_COM", data := raw }, ?_, Or.inr (Or.inr (Or.inr rfl))⟩
            simp [classifyResponse, h1, h2, h3, hm]
        · by_cases h4 : (raw.isObjectLike && raw.hasField "message") = true
          · refine Or.inl ⟨(raw.messageValue).renderString, ?_⟩
            simp [classifyResponse, h1, h2, h3, h4]
          · refine Or.inl ⟨"No results found or invalid response format.", ?_⟩
            simp [classifyResponse, h1, h2, h3, h4]
  · intro hno
    have h1 : isMultipleCompanyResponse raw = false := by
      simp [isMultipleCompanyResponse, hno]
    have h2 : isSsicSummaryResponse raw = false := by
      simp [isSsicSummaryResponse, hno]
    have h3 : isSingleCompanyResponse raw = false := by
      simp [isSingleCompanyResponse, hno]
    simp [classifyResponse, h1, h2, h3, hno]
  · intro xs hx
    subst hx
    simp [classifyResponse, isMultipleCompanyResponse, isSsicSummaryResponse,
          isSingleCompanyResponse, Json.strFieldEq, Json.isArrayField, Json.hasField,
          Json.getField, Json.isObjectLike]

/-- Witness for C10: the null payload and an array payload both land in the
unrecognised outcome with the generic message. -/
theorem claim_C10_witness :
    (Json.null).isObjectLike = false ∧
    classifyResponse SearchType.UEN Json.null =
      ClassifyResult.errMsg "No results found or invalid response format." ∧
    classifyResponse SearchType.UEN (Json.arr []) =
      ClassifyResult.errMsg "No results found or invalid response format." := by
  have h1 := (claim_C10_classification_total SearchType.UEN Json.null).2.1 rfl
  have h2 := (claim_C10_classification_total SearchType.UEN (Json.arr [])).2.2 [] rfl
  exact ⟨rfl, h1, h2⟩
